import Mathlib

set_option maxHeartbeats 1000000
set_option linter.unnecessarySeqFocus false

/-
Verification development for the AudioREV batch preprocessing and
data-loading pipeline (src/AudioREV.py, with the older revision in
src/.old/AudioREV1_1.py).

The Python functions are shallowly embedded as pure Lean functions.
Filesystem and subprocess interaction is abstracted into explicit input
data: the state of the file system at load time becomes a predicate
passed to the function, the result of os.listdir becomes an Except value,
and the outcome of the external subprocess becomes an explicit outcome
value.  Python floats are modelled as rationals, Python str as String,
and exceptions as explicit branches.
-/

/-- One line of a JSON-lines file, as seen by json.loads: either malformed
JSON, raising JSONDecodeError, or a successfully parsed value. -/
inductive JsonLine (α : Type) where
  | malformed
  | parsed (a : α)
deriving DecidableEq

/-- A parsed line of paths.jsonl.  The path field of the JSON object, or
none when the object has no path key.  In the code this is
path_data.get("path"), AudioREV.py line 82. -/
structure PathEntry where
  path : Option String
deriving DecidableEq

/-- A parsed line of scores.jsonl: the four optional numeric scores, read
with score_data.get, AudioREV.py lines 100 to 103. -/
structure ScoreEntry where
  CE : Option ℚ
  CU : Option ℚ
  PC : Option ℚ
  PQ : Option ℚ
deriving DecidableEq

/-- One immediate subdirectory of the base directory, as the Reader sees
it: its name, whether both paths.jsonl and scores.jsonl exist in it
(AudioREV.py line 54), and the lines of the two files. -/
structure SubdirFiles where
  name : String
  hasBoth : Bool
  pathsLines : List (JsonLine PathEntry)
  scoresLines : List (JsonLine ScoreEntry)
deriving DecidableEq

/-- One loaded AudioRecord, the dict built at AudioREV.py lines 97 to 104. -/
structure Entry where
  filename : String
  path : String
  CE : Option ℚ
  CU : Option ℚ
  PC : Option ℚ
  PQ : Option ℚ
deriving DecidableEq

/-- Model of pathlib Path(p).name: the final component of the path, the
characters after the last slash. -/
def pathName (p : String) : String :=
  String.mk ((p.data.reverse.takeWhile fun ch => decide (ch ≠ '/')).reverse)

/-- Reading a file line by line, skipping lines that raise
JSONDecodeError: AudioREV.py lines 60 to 75.  The parsed lines are kept
in order; malformed lines are dropped. -/
def parsedLines {α : Type} : List (JsonLine α) → List α :=
  List.filterMap fun l => match l with
    | .malformed => none
    | .parsed a => some a

/-- Whether a line is malformed JSON. -/
def isMalformed {α : Type} : JsonLine α → Bool := fun l => match l with
  | .malformed => true
  | .parsed _ => false

/-- The body of the pairing loop, AudioREV.py lines 81 to 105, for one
positional pair of parsed entries: yields a record when the path key is
present, non-empty, and refers to an existing regular file; otherwise
yields nothing.  The isFile argument is the state of the file system at
load time (Path(p).is_file() at line 92).  Path(p) round-trips the path
string unchanged in this model. -/
def pairRecord (isFile : String → Bool) (pd : PathEntry) (sd : ScoreEntry) :
    Option Entry :=
  match pd.path with
  | none => none
  | some p =>
    if p = "" then none
    else if isFile p then
      some { filename := pathName p, path := p,
             CE := sd.CE, CU := sd.CU, PC := sd.PC, PQ := sd.PQ }
    else none

/-- The contribution of one pair to invalid_entries_count in the pairing
loop: one for a missing or empty path key (line 85), one for a path that
is not an existing regular file (line 94), zero for an accepted pair. -/
def pairInvalid (isFile : String → Bool) (pd : PathEntry) (_sd : ScoreEntry) :
    ℕ :=
  match pd.path with
  | none => 1
  | some p => if p = "" then 1 else if isFile p then 0 else 1

/-- The records contributed by one subdirectory: nothing when either file
is missing (line 54); nothing when the valid-line counts of the two files
differ (lines 77 to 79, the whole subdirectory is skipped); otherwise the
records accepted by the pairing loop over zip(paths, scores). -/
def subdirRecords (isFile : String → Bool) (d : SubdirFiles) : List Entry :=
  if d.hasBoth then
    let pc := parsedLines d.pathsLines
    let sc := parsedLines d.scoresLines
    if pc.length = sc.length then
      (pc.zip sc).filterMap fun pr => pairRecord isFile pr.1 pr.2
    else []
  else []

/-- The contribution of one subdirectory to invalid_entries_count.
Malformed lines of paths.jsonl are counted while being read (line 66);
malformed lines of scores.jsonl are deliberately not counted (the
increment at line 75 is commented out in the source).  The pairing-stage
contributions are only reached when the valid-line counts match. -/
def subdirInvalid (isFile : String → Bool) (d : SubdirFiles) : ℕ :=
  if d.hasBoth then
    let pc := parsedLines d.pathsLines
    let sc := parsedLines d.scoresLines
    let badPaths := d.pathsLines.countP isMalformed
    if pc.length = sc.length then
      badPaths + ((pc.zip sc).map fun pr => pairInvalid isFile pr.1 pr.2).sum
    else badPaths
  else 0

/-- Model of load_audio_data, AudioREV.py lines 33 to 120.  The subdirs
argument is the list of immediate subdirectories of base_dir in listing
order (non-directory entries of os.listdir are already excluded, they are
skipped by the isdir test at line 49); baseIsDir is the os.path.isdir
check at line 39.  Returns the loaded records, the error message of the
result triple, and subdirs_scanned, exactly as the Python function
returns them. -/
def load_audio_data (isFile : String → Bool) (baseIsDir : Bool)
    (subdirs : List SubdirFiles) : List Entry × Option String × ℕ :=
  if baseIsDir = false then
    ([], some "Selected path is not a valid directory.", 0)
  else
    let allData := subdirs.flatMap (subdirRecords isFile)
    let foundFiles := subdirs.any (fun d => d.hasBoth)
    if foundFiles = false ∧ allData = [] then
      ([], some "No subdirectories with jsonl files found or processed.",
       subdirs.length)
    else if allData = [] ∧ foundFiles = true then
      ([], some "Found subdirectories with jsonl files, but failed to load any valid audio entries (check paths and file existence).",
       subdirs.length)
    else (allData, none, subdirs.length)

/-- The total value of the internal invalid_entries_count counter printed
at AudioREV.py line 112 (it is not part of the returned triple). -/
def totalInvalid (isFile : String → Bool) (subdirs : List SubdirFiles) : ℕ :=
  (subdirs.map (subdirInvalid isFile)).sum

/-- The paths resolved from manifest lines: for every subdirectory whose
file pair is present, the path values of the lines of paths.jsonl that
parse as JSON and carry a path key. -/
def resolvedPaths (subdirs : List SubdirFiles) : List String :=
  subdirs.flatMap fun d =>
    if d.hasBoth then (parsedLines d.pathsLines).filterMap (fun e => e.path)
    else []

/-
WAV Index Writer: create_wav_jsonl, AudioREV.py lines 123 to 186.
-/

/-- The result on disk of one create_wav_jsonl call for the manifest file
paths.jsonl: untouched when no open succeeded, or opened with mode w
(truncating) and the given JSON lines written. -/
inductive ManifestEffect where
  | untouched
  | written (entries : List String)
deriving DecidableEq

instance {ε α : Type} [DecidableEq ε] [DecidableEq α] :
    DecidableEq (Except ε α) := fun a b =>
  match a, b with
  | .error x, .error y => decidable_of_iff (x = y) (by simp)
  | .ok x, .ok y => decidable_of_iff (x = y) (by simp)
  | .error _, .ok _ => .isFalse (by simp)
  | .ok _, .error _ => .isFalse (by simp)

/-- The environment of one create_wav_jsonl call: the result of
os.listdir(target_dir) (line 140), and whether open(output_path, "w")
succeeds (line 155). -/
structure CwjWorld where
  listing : Except String (List String)
  openOk : Bool
deriving DecidableEq

/-- The filter at AudioREV.py line 141: f.lower().endswith(".wav"),
expressed over the character list: the lowercased name ends in the four
characters dot w a v. -/
def endsWithWavCI (f : String) : Bool :=
  decide ((f.data.map Char.toLower).reverse.take 4 = ['v', 'a', 'w', '.'])

/-- Model of create_wav_jsonl, AudioREV.py lines 123 to 186.  The pathify
argument abstracts Path(os.path.abspath(os.path.join(target_dir, f))).as_posix()
at lines 159 to 161; the per-entry try/except at lines 157 to 167 never
fires in this total model.  Returns the count (or -1 on error), the
message, and the effect on the manifest file.  Note the file is opened
with mode w, truncating it, before any entry is written, even when the
list of WAV files is empty. -/
def create_wav_jsonl (pathify : String → String) (target_dir : String)
    (output_filename : String) (w : CwjWorld) :
    Int × String × ManifestEffect :=
  match w.listing with
  | .error e =>
    (-1, "OSError listing files in " ++ (target_dir ++ (": " ++ e)),
     .untouched)
  | .ok allFiles =>
    let wavFilenames := allFiles.filter endsWithWavCI
    if w.openOk then
      ((wavFilenames.length : Int),
       "Created " ++ (output_filename ++ (" with " ++
         (toString wavFilenames.length ++ " WAV entries."))),
       .written (wavFilenames.map pathify))
    else
      (-1, "OSError creating " ++ (output_filename ++ (" in " ++ target_dir)),
       .untouched)

/-
External Scorer Invoker: run_audio_aes, AudioREV.py lines 189 to 258.
-/

/-- Model of os.path.join with one component. -/
def joinPath (a b : String) : String := a ++ ("/" ++ b)

/-- The outcome of the subprocess.run call at AudioREV.py lines 222 to 230
together with the subsequent write of the output file:
notFound models FileNotFoundError (the command does not resolve to an
executable); failed models subprocess.CalledProcessError (non-zero exit
status, carrying the exit code and both captured streams); completed
models a zero exit status, carrying both captured streams, whether the
write of the output file at lines 233 to 234 succeeds, and the OSError
text when it does not. -/
inductive AesOutcome where
  | notFound
  | failed (code : ℤ) (out : String) (err : String)
  | completed (out : String) (err : String) (writeOk : Bool) (writeErr : String)
deriving DecidableEq

/-- The environment of one run_audio_aes call: whether the input manifest
exists (line 206), whether it is empty (line 208), and the process
outcome reached when both preconditions hold. -/
structure AesWorld where
  inputExists : Bool
  inputEmpty : Bool
  outcome : AesOutcome
deriving DecidableEq

/-- The state of the scores output file after one run_audio_aes call:
untouched, fully written with the given content, or truncated by a write
that failed after open(output_path, "w"). -/
inductive FileEffect where
  | untouched
  | written (content : String)
  | truncated
deriving DecidableEq

/-- Message of the FileNotFoundError branch, AudioREV.py line 243. -/
def notFoundMsg (cmd : String) : String :=
  "Error: Command \x27" ++ (cmd ++
    "\x27 not found. Make sure it\x27s installed and in your system PATH.")

/-- Message of the CalledProcessError branch, AudioREV.py lines 244 to 252:
the exit code always, each captured stream only when non-empty (stripped,
modelled by String.trim). -/
def exitMsg (cmd : String) (code : ℤ) (out err : String) : String :=
  "Error running " ++ (cmd ++ (". Exit code: " ++ (toString code ++
    ((if err = "" then "" else "\nStderr:\n" ++ err.trim) ++
     (if out = "" then "" else "\nStdout:\n" ++ out.trim)))))

/-- Message of the OSError branch, AudioREV.py line 255. -/
def osWriteMsg (outputPath : String) (e : String) : String :=
  "OSError during command execution or writing output " ++ (outputPath ++
    (": " ++ e))

/-- Message of the success branch, AudioREV.py lines 236 to 239. -/
def successMsg (output_jsonl err : String) : String :=
  "Successfully created " ++ (output_jsonl ++ ".") ++
    (if err = "" then "" else "\n  Command stderr output:\n" ++ err.trim)

/-- Model of run_audio_aes, AudioREV.py lines 189 to 258.  Returns the
(success, message) pair of the Python function together with the effect
on the scores output file.  The captured standard output is written to
the output file only in the zero-exit branch (lines 233 to 234); every
exception branch returns False with its distinguishing message. -/
def run_audio_aes (target_dir cmd input_jsonl output_jsonl : String)
    (_batch_size : ℕ) (w : AesWorld) : Bool × String × FileEffect :=
  let input_path := joinPath target_dir input_jsonl
  let output_path := joinPath target_dir output_jsonl
  if w.inputExists = false then
    (false, "Input file not found: " ++ input_path, .untouched)
  else if w.inputEmpty = true then
    (false, "Input file is empty: " ++ input_path, .untouched)
  else
    match w.outcome with
    | .notFound => (false, notFoundMsg cmd, .untouched)
    | .failed code out err => (false, exitMsg cmd code out err, .untouched)
    | .completed out err true _ =>
      (true, successMsg output_jsonl err, .written out)
    | .completed _ _err false werr =>
      (false, osWriteMsg output_path werr, .truncated)

/-
Batch Orchestrator: _perform_preprocessing, AudioREV.py lines 1079 to 1187.
-/

/-- The per-subdirectory state of the world when the orchestrator reaches
it: the directory name, whether scores.jsonl already exists (line 1121),
the environment of the create_wav_jsonl call, and the environment of the
run_audio_aes call. -/
structure SubdirWorld where
  name : String
  scoresExists : Bool
  cwj : CwjWorld
  aes : AesWorld
deriving DecidableEq

/-- The terminal state of one subdirectory in the orchestrator loop; each
corresponds to exactly one counter increment in the loop body (lines 1121
to 1164; both the writer-error branch at line 1135 and the scorer-failure
branch at line 1163 increment the same error counter). -/
inductive SubdirOutcome where
  | skippedExisting
  | error
  | skippedNoWav
  | processed
deriving DecidableEq

/-- The branch taken by the orchestrator loop body for one subdirectory,
AudioREV.py lines 1108 to 1164. -/
def subdirOutcome (pathify : String → String) (cmd : String) (batch : ℕ)
    (overwrite : Bool) (base : String) (d : SubdirWorld) : SubdirOutcome :=
  let sub := joinPath base d.name
  if overwrite = false ∧ d.scoresExists = true then .skippedExisting
  else
    let numWavs := (create_wav_jsonl pathify sub "paths.jsonl" d.cwj).1
    if numWavs < 0 then .error
    else if numWavs = 0 then .skippedNoWav
    else if (run_audio_aes sub cmd "paths.jsonl" "scores.jsonl" batch d.aes).1
    then .processed
    else .error

/-- Whether the loop body reaches the run_audio_aes call at line 1152 for
this subdirectory: it must pass the skip-existing check and the writer
must have found at least one WAV file. -/
def subdirInvokes (pathify : String → String) (overwrite : Bool)
    (base : String) (d : SubdirWorld) : Bool :=
  if overwrite = false ∧ d.scoresExists = true then false
  else decide (0 < (create_wav_jsonl pathify (joinPath base d.name)
    "paths.jsonl" d.cwj).1)

/-- The effect of the loop body on the manifest file paths.jsonl of this
subdirectory: untouched when skipped for an existing scores file (the
skip happens before create_wav_jsonl runs), otherwise whatever
create_wav_jsonl did to it. -/
def subdirManifestEffect (pathify : String → String) (overwrite : Bool)
    (base : String) (d : SubdirWorld) : ManifestEffect :=
  if overwrite = false ∧ d.scoresExists = true then .untouched
  else (create_wav_jsonl pathify (joinPath base d.name) "paths.jsonl" d.cwj).2.2

/-- The observable result of one orchestrator run: the four counters of
the loop, how many times the final summary block (lines 1166 to 1187) was
produced, the names of the subdirectories for which run_audio_aes was
invoked, and the per-subdirectory manifest effects. -/
structure RunOutcome where
  processed : ℕ
  errors : ℕ
  skippedNoWav : ℕ
  skippedExisting : ℕ
  summaryCount : ℕ
  invoked : List String
  manifestEffects : List (String × ManifestEffect)
deriving DecidableEq

/-- Model of _perform_preprocessing, AudioREV.py lines 1079 to 1187.  The
listing argument is the result of enumerating the subdirectories of
base_dir at line 1091, already in sorted order (line 1092).  A listing
failure returns at line 1097 and an empty listing returns at line 1102,
both before the final summary block; otherwise the loop runs over every
subdirectory and the summary block then executes exactly once.  The
counters are expressed as counts of the per-subdirectory branch function
over the listing, which is what the increments in the sequential loop
compute. -/
def perform_preprocessing (pathify : String → String) (cmd : String)
    (batch : ℕ) (overwrite : Bool) (base : String)
    (listing : Except String (List SubdirWorld)) : RunOutcome :=
  match listing with
  | .error _ =>
    { processed := 0, errors := 0, skippedNoWav := 0, skippedExisting := 0,
      summaryCount := 0, invoked := [], manifestEffects := [] }
  | .ok subdirs =>
    if subdirs = [] then
      { processed := 0, errors := 0, skippedNoWav := 0, skippedExisting := 0,
        summaryCount := 0, invoked := [], manifestEffects := [] }
    else
      { processed := subdirs.countP fun d =>
          decide (subdirOutcome pathify cmd batch overwrite base d = .processed)
        errors := subdirs.countP fun d =>
          decide (subdirOutcome pathify cmd batch overwrite base d = .error)
        skippedNoWav := subdirs.countP fun d =>
          decide (subdirOutcome pathify cmd batch overwrite base d = .skippedNoWav)
        skippedExisting := subdirs.countP fun d =>
          decide (subdirOutcome pathify cmd batch overwrite base d = .skippedExisting)
        summaryCount := 1
        invoked := (subdirs.filter (subdirInvokes pathify overwrite base)).map
          (fun d => d.name)
        manifestEffects := subdirs.map fun d =>
          (d.name, subdirManifestEffect pathify overwrite base d) }

/-
Starting a run: run_preprocessing_thread, AudioREV.py lines 974 to 1077,
and the same method of the older revision, AudioREV1_1.py lines 821 to 874.
-/

/-- The number of live preprocessing worker threads. -/
structure UiState where
  activeRuns : ℕ
deriving DecidableEq

/-- Diagnostic of the invalid-directory rejection, AudioREV.py line 978. -/
def invalidDirMsg : String :=
  "Please select a valid base directory containing the subdirectories to process."

/-- Status text when the options dialog is cancelled, AudioREV.py line 1053. -/
def cancelledMsg : String := "Preprocessing cancelled by user."

/-- Diagnostic of the busy rejection in the older revision,
AudioREV1_1.py line 829. -/
def busyMsg : String :=
  "A preprocessing job is already running. Please wait for it to complete or close the application and restart if it\x27s stuck."

/-- Model of run_preprocessing_thread in the current revision, AudioREV.py
lines 974 to 1077: validate the directory, run the options dialog, then
start a worker thread unconditionally.  There is no check for an already
running job.  Returns the new state and the rejection or cancellation
diagnostic, none when a thread was started. -/
def run_preprocessing_thread (dirValid okClicked : Bool) (s : UiState) :
    UiState × Option String :=
  if dirValid = false then (s, some invalidDirMsg)
  else if okClicked = false then (s, some cancelledMsg)
  else ({ activeRuns := s.activeRuns + 1 }, none)

/-- Model of run_preprocessing_thread in the older revision,
AudioREV1_1.py lines 821 to 874: after validating the directory it
rejects with a busy diagnostic when the stored worker thread is still
alive (lines 827 to 830), before the options dialog. -/
def run_preprocessing_thread_old (dirValid okClicked : Bool) (s : UiState) :
    UiState × Option String :=
  if dirValid = false then (s, some invalidDirMsg)
  else if s.activeRuns ≠ 0 then (s, some busyMsg)
  else if okClicked = false then (s, some cancelledMsg)
  else ({ activeRuns := s.activeRuns + 1 }, none)

/-
Filter/Sort Engine: sort_column, AudioREV.py lines 678 to 719.
-/

/-- A sortable column.  The column headers bind sort_column with key
filename or path and is_numeric False, and with key CE, CU, PC or PQ and
is_numeric True (AudioREV.py lines 420 to 430); the is_numeric flag is
therefore determined by the column. -/
inductive Col where
  | filename
  | path
  | CE
  | CU
  | PC
  | PQ
deriving DecidableEq

/-- The value returned by the sort_key closure at AudioREV.py lines 694
to 703: a float, with float("-inf") and float("inf") as the substitutes
for absent values, or a lowercased string for the non-numeric columns.
Finite floats are modelled as rationals.  The cross-constructor cases of
the order below are never compared within one sort call, since one column
produces keys of one constructor only. -/
inductive SKey where
  | nbot
  | nval (q : ℚ)
  | ntop
  | strv (s : String)
deriving DecidableEq

/-- The total comparison on sort keys: the float order with its two
infinities on the numeric side, the string order on the string side. -/
def leSKey : SKey → SKey → Bool
  | .nbot, .nbot => true
  | .nbot, .nval _ => true
  | .nbot, .ntop => true
  | .nbot, .strv _ => true
  | .nval _, .nbot => false
  | .nval a, .nval b => decide (a ≤ b)
  | .nval _, .ntop => true
  | .nval _, .strv _ => true
  | .ntop, .nbot => false
  | .ntop, .nval _ => false
  | .ntop, .ntop => true
  | .ntop, .strv _ => true
  | .strv _, .nbot => false
  | .strv _, .nval _ => false
  | .strv _, .ntop => false
  | .strv a, .strv b => decide (a ≤ b)

/-- Whether the entry has an absent value in the given column.  Only the
four numeric columns can be absent; filename and path are always
present strings. -/
def colAbsent (c : Col) (e : Entry) : Bool :=
  match c with
  | .filename => false
  | .path => false
  | .CE => e.CE.isNone
  | .CU => e.CU.isNone
  | .PC => e.PC.isNone
  | .PQ => e.PQ.isNone

/-- The key of a numeric column value, AudioREV.py lines 696 to 702:
absent values become float("inf") when sorting ascending and
float("-inf") when sorting descending. -/
def numKey (reverse : Bool) : Option ℚ → SKey
  | none => if reverse then .nbot else .ntop
  | some v => .nval v

/-- The sort_key closure, AudioREV.py lines 694 to 703, per column: the
numeric columns use numKey, the string columns use the lowercased string
value. -/
def sortKeyFor (c : Col) (reverse : Bool) (e : Entry) : SKey :=
  match c with
  | .filename => .strv e.filename.toLower
  | .path => .strv e.path.toLower
  | .CE => numKey reverse e.CE
  | .CU => numKey reverse e.CU
  | .PC => numKey reverse e.PC
  | .PQ => numKey reverse e.PQ

/-- The element comparison realised by the Python call
list.sort(key=sort_key, reverse=reverse) at AudioREV.py line 708: a
stable sort by key, with reverse inverting the key comparison but not
the relative order of elements with equal keys (the documented CPython
semantics of sort with reverse=True). -/
def sortLe (c : Col) (reverse : Bool) (a b : Entry) : Bool :=
  if reverse then leSKey (sortKeyFor c reverse b) (sortKeyFor c reverse a)
  else leSKey (sortKeyFor c reverse a) (sortKeyFor c reverse b)

/-- The sorting state of the application: the displayed records and the
current sort column and direction (AudioREV.py lines 273 to 274). -/
structure SortState where
  display : List Entry
  currentSortColumn : Option Col
  currentSortReverse : Bool
deriving DecidableEq

/-- Model of sort_column, AudioREV.py lines 678 to 719.  An empty display
returns at line 682 without touching the sort state.  Otherwise the
direction toggles when the same column is sorted again and resets to
ascending on a new column (lines 687 to 691), the displayed list is
stably sorted in place (line 708, modelled by the stable mergeSort with
the comparison sortLe), and the column and direction are stored (lines
709 to 710). -/
def sort_column (c : Col) (s : SortState) : SortState :=
  if s.display = [] then s
  else
    let reverse := if s.currentSortColumn = some c then !s.currentSortReverse
      else false
    { display := s.display.mergeSort (sortLe c reverse),
      currentSortColumn := some c,
      currentSortReverse := reverse }

/-- The property bundle of claim C5 for one starting state and column:
writing s1, s2, s3 for the states after one, two and three invocations of
sort_column on the same column, the direction is ascending, descending,
ascending; each sort permutes the displayed records; each sort is stable
for equal keys; records with an absent value in the sort column are
placed after all records with present values in both directions; and the
displayed list is ordered by the direction of the invocation. -/
def sortClaimProps (c : Col) (s : SortState) : Prop :=
  ((sort_column c s).currentSortReverse = false ∧
    (sort_column c s).currentSortColumn = some c ∧
    (sort_column c (sort_column c s)).currentSortReverse = true ∧
    (sort_column c (sort_column c (sort_column c s))).currentSortReverse
      = false) ∧
  ((sort_column c s).display.Perm s.display ∧
    (sort_column c (sort_column c s)).display.Perm s.display) ∧
  (∀ a b : Entry, [a, b].Sublist s.display →
    sortKeyFor c false a = sortKeyFor c false b →
    [a, b].Sublist (sort_column c s).display) ∧
  (∀ a b : Entry, [a, b].Sublist (sort_column c s).display →
    sortKeyFor c true a = sortKeyFor c true b →
    [a, b].Sublist (sort_column c (sort_column c s)).display) ∧
  (∀ a b : Entry, [a, b].Sublist (sort_column c s).display →
    colAbsent c a = true → colAbsent c b = true) ∧
  (∀ a b : Entry, [a, b].Sublist (sort_column c (sort_column c s)).display →
    colAbsent c a = true → colAbsent c b = true) ∧
  ((sort_column c s).display.Pairwise fun a b => sortLe c false a b = true) ∧
  ((sort_column c (sort_column c s)).display.Pairwise fun a b =>
    sortLe c true a b = true)

/-
Concrete instances used by the witness and counterexample theorems.
-/

/-- A file-system state in which every path is an existing regular file. -/
def allFiles : String → Bool := fun _ => true

/-- C1 counterexample input: one subdirectory whose manifest has one valid
line with an existing path, while its scores file is empty. -/
def c1Sub : SubdirFiles :=
  { name := "d", hasBoth := true,
    pathsLines := [.parsed { path := some "/a" }],
    scoresLines := [] }

/-- C1 witness input: one subdirectory with a matching one-line pair. -/
def c1GoodSub : SubdirFiles :=
  { name := "d", hasBoth := true,
    pathsLines := [.parsed { path := some "/a" }],
    scoresLines := [.parsed { CE := some 1, CU := none, PC := none, PQ := none }] }

/-- C2 witness input: a mismatched subdirectory next to a clean one. -/
def c2Bad : SubdirFiles :=
  { name := "bad", hasBoth := true,
    pathsLines := [.parsed { path := some "/a" }],
    scoresLines := [] }

/-- C2 witness input: the clean companion subdirectory. -/
def c2Good : SubdirFiles :=
  { name := "good", hasBoth := true,
    pathsLines := [.parsed { path := some "/b" }],
    scoresLines := [.parsed { CE := none, CU := none, PC := none, PQ := none }] }

/-- C6 counterexample input: a subdirectory whose scores file has one
malformed line and whose valid-line counts match. -/
def c6Sub : SubdirFiles :=
  { name := "d", hasBoth := true,
    pathsLines := [.parsed { path := some "/a" }],
    scoresLines := [.malformed,
      .parsed { CE := none, CU := none, PC := none, PQ := none }] }

/-- C3 witness input: one subdirectory with one WAV file and a successful
scorer run. -/
def c3Sub : SubdirWorld :=
  { name := "s1", scoresExists := false,
    cwj := { listing := .ok ["a.wav"], openOk := true },
    aes := { inputExists := true, inputEmpty := false,
             outcome := .completed "scores" "" true "" } }

/-- C7 and C9 witness input: a run whose external command exits with a
non-zero status. -/
def c7World : AesWorld :=
  { inputExists := true, inputEmpty := false,
    outcome := .failed 3 "tool stdout" "tool stderr" }

/-- C8 witness input: a subdirectory with no WAV files. -/
def c8NoWav : SubdirWorld :=
  { name := "empty", scoresExists := false,
    cwj := { listing := .ok ["readme.txt"], openOk := true },
    aes := { inputExists := true, inputEmpty := false, outcome := .notFound } }

/-- C8 witness input: a companion subdirectory with one WAV file. -/
def c8Wav : SubdirWorld :=
  { name := "full", scoresExists := false,
    cwj := { listing := .ok ["a.wav"], openOk := true },
    aes := { inputExists := true, inputEmpty := false,
             outcome := .completed "scores" "" true "" } }

/-- C5 witness entries: an absent PQ, then two present PQ values out of
order, with equal CE keys to exercise stability. -/
def c5e1 : Entry :=
  { filename := "a.wav", path := "/d/a.wav",
    CE := none, CU := none, PC := none, PQ := none }

/-- C5 witness entry with PQ present. -/
def c5e2 : Entry :=
  { filename := "b.wav", path := "/d/b.wav",
    CE := some 1, CU := none, PC := none, PQ := some 2 }

/-- C5 witness entry with PQ present and smaller. -/
def c5e3 : Entry :=
  { filename := "c.wav", path := "/d/c.wav",
    CE := some 1, CU := none, PC := none, PQ := some 1 }

/-- C5 witness starting state: three displayed records, no current sort
column. -/
def c5State : SortState :=
  { display := [c5e1, c5e2, c5e3],
    currentSortColumn := none, currentSortReverse := false }

/-- The identity path normalisation, used as the pathify argument in
concrete instances. -/
def wPathify : String → String := fun p => p

/-- C4 input: a state with one live preprocessing worker. -/
def c4Busy : UiState := { activeRuns := 1 }

/-- C10 witness input: a subdirectory whose listing holds no WAV file but
whose manifest open succeeds. -/
def c10Sub : SubdirWorld :=
  { name := "nowav", scoresExists := false,
    cwj := { listing := .ok ["readme.txt"], openOk := true },
    aes := { inputExists := true, inputEmpty := false, outcome := .notFound } }

/-- The property bundle of claim C7: every failed invocation of
run_audio_aes returns False with a message of its category, the
non-zero-exit message carries the exit code and both captured streams
(each stream when non-empty, as the code includes them), and the three
failure categories produce pairwise distinct messages for all inputs. -/
def aesFailureProps (dir cmd injl outjl : String) (batch : ℕ)
    (w : AesWorld) : Prop :=
  (w.outcome = .notFound →
    run_audio_aes dir cmd injl outjl batch w =
      (false, notFoundMsg cmd, .untouched)) ∧
  (∀ code out err, w.outcome = .failed code out err →
    run_audio_aes dir cmd injl outjl batch w =
      (false, exitMsg cmd code out err, .untouched) ∧
    (∃ x y, exitMsg cmd code out err = x ++ (toString code ++ y)) ∧
    (err ≠ "" → ∃ x y, exitMsg cmd code out err = x ++ (err.trim ++ y)) ∧
    (out ≠ "" → ∃ x y, exitMsg cmd code out err = x ++ (out.trim ++ y))) ∧
  (∀ out err werr, w.outcome = .completed out err false werr →
    run_audio_aes dir cmd injl outjl batch w =
      (false, osWriteMsg (joinPath dir outjl) werr, .truncated)) ∧
  (∀ cmd2 code out err opath we,
    notFoundMsg cmd ≠ exitMsg cmd2 code out err ∧
    notFoundMsg cmd ≠ osWriteMsg opath we ∧
    exitMsg cmd2 code out err ≠ osWriteMsg opath we)

/-
Theorems.
-/

/-- C4 counterexample: in the current revision, with one run already
active, a start attempt with a valid directory and a confirmed dialog
spawns a second concurrent worker (two active runs) and returns no
rejection diagnostic. -/
theorem second_run_not_rejected_counterexample :
    ¬ ((run_preprocessing_thread true true c4Busy).1.activeRuns ≤ 1) ∧
    (run_preprocessing_thread true true c4Busy).2 = none := by
  decide

/-- C4 amended: in the older revision, a start attempt while a worker is
alive is rejected with the busy diagnostic and leaves the state
untouched, so at most one run is ever active there. -/
theorem second_run_rejected_old (okClicked : Bool) (s : UiState)
    (hactive : s.activeRuns ≠ 0) :
    run_preprocessing_thread_old true okClicked s = (s, some busyMsg) ∧
    (∀ t : UiState, t.activeRuns ≤ 1 →
      (run_preprocessing_thread_old true okClicked t).1.activeRuns ≤ 1) := by
  constructor
  · simp [run_preprocessing_thread_old, hactive]
  · intro t ht
    by_cases h : t.activeRuns = 0
    · by_cases hk : okClicked = false
      · simp [run_preprocessing_thread_old, h, hk]
      · simp [run_preprocessing_thread_old, h, hk]
    · simp [run_preprocessing_thread_old, h]
      exact ht

/-- C4 witness: the amended theorem applied to the busy state. -/
theorem second_run_rejected_old_witness :
    run_preprocessing_thread_old true true c4Busy = (c4Busy, some busyMsg) ∧
    (∀ t : UiState, t.activeRuns ≤ 1 →
      (run_preprocessing_thread_old true true t).1.activeRuns ≤ 1) :=
  second_run_rejected_old true c4Busy (by decide)

/-- C3 counterexample: a run whose base directory holds zero
subdirectories returns early (AudioREV.py line 1102) and never produces
the final summary, so the summary is not produced exactly once for every
run. -/
theorem summary_once_counterexample :
    (perform_preprocessing wPathify "audio-aes" 100 false "/base"
      (.ok [])).summaryCount ≠ 1 := by
  decide

/-- C3 amended: the final summary is produced exactly once for every run
whose subdirectory enumeration succeeds and finds at least one
subdirectory; a run whose enumeration fails terminates without a
summary. -/
theorem summary_once_amended (pathify : String → String) (cmd : String)
    (batch : ℕ) (overwrite : Bool) (base : String)
    (subdirs : List SubdirWorld) (hne : subdirs ≠ []) :
    (perform_preprocessing pathify cmd batch overwrite base
      (.ok subdirs)).summaryCount = 1 ∧
    (∀ e : String, (perform_preprocessing pathify cmd batch overwrite base
      (.error e)).summaryCount = 0) := by
  constructor
  · simp [perform_preprocessing, hne]
  · intro e
    rfl

/-- C3 witness: the amended theorem applied to a one-subdirectory run. -/
theorem summary_once_amended_witness :
    (perform_preprocessing wPathify "audio-aes" 100 false "/base"
      (.ok [c3Sub])).summaryCount = 1 ∧
    (∀ e : String, (perform_preprocessing wPathify "audio-aes" 100 false
      "/base" (.error e)).summaryCount = 0) :=
  summary_once_amended wPathify "audio-aes" 100 false "/base" [c3Sub]
    (by decide)

/-- C9: on a non-zero exit status the invoker fails and the scores output
file is untouched, and the output file receives content only from a
zero-exit run whose write succeeded, in which case the content is the
captured standard output. -/
theorem nonzero_exit_leaves_output_untouched (dir cmd injl outjl : String)
    (batch : ℕ) (w : AesWorld) :
    (∀ code out err, w.outcome = .failed code out err →
      (run_audio_aes dir cmd injl outjl batch w).1 = false ∧
      (run_audio_aes dir cmd injl outjl batch w).2.2 = .untouched) ∧
    (∀ s, (run_audio_aes dir cmd injl outjl batch w).2.2 = .written s →
      ∃ err werr, w.outcome = .completed s err true werr) := by
  rcases w with ⟨ie, iemp, oc⟩
  constructor
  · intro code out err h
    simp only at h
    subst h
    cases ie <;> cases iemp <;> simp [run_audio_aes]
  · intro s h
    cases ie <;> cases iemp <;>
      rcases oc with _ | ⟨c2, o2, e2⟩ | ⟨o2, e2, wk, we⟩ <;>
      (try cases wk) <;> simp [run_audio_aes] at h <;>
      exact ⟨e2, we, by rw [h]⟩

/-- C9 witness: the theorem applied to a run that exits with status 3. -/
theorem nonzero_exit_leaves_output_untouched_witness :
    (run_audio_aes "/b/s1" "audio-aes" "paths.jsonl" "scores.jsonl" 100
      c7World).1 = false ∧
    (run_audio_aes "/b/s1" "audio-aes" "paths.jsonl" "scores.jsonl" 100
      c7World).2.2 = .untouched :=
  (nonzero_exit_leaves_output_untouched "/b/s1" "audio-aes" "paths.jsonl"
    "scores.jsonl" 100 c7World).1 3 "tool stdout" "tool stderr" rfl

/-- The sixth character of an appended string is that of the left part
when the left part is long enough. -/
theorem charAt5_append (a b : String) (h : 5 < a.data.length) :
    (a ++ b).data.getD 5 ' ' = a.data.getD 5 ' ' := by
  rw [String.data_append]
  exact List.getD_append a.data b.data ' ' 5 h

/-- The sixth character of every command-not-found message. -/
theorem charAt5_notFound (cmd : String) :
    (notFoundMsg cmd).data.getD 5 ' ' = ':' := by
  unfold notFoundMsg
  rw [charAt5_append _ _ (by decide)]
  decide

/-- The sixth character of every non-zero-exit message. -/
theorem charAt5_exit (cmd : String) (code : ℤ) (out err : String) :
    (exitMsg cmd code out err).data.getD 5 ' ' = ' ' := by
  unfold exitMsg
  rw [charAt5_append _ _ (by decide)]
  decide

/-- The sixth character of every output-write OSError message. -/
theorem charAt5_os (p e : String) :
    (osWriteMsg p e).data.getD 5 ' ' = 'o' := by
  unfold osWriteMsg
  rw [charAt5_append _ _ (by decide)]
  decide

/-- C7: the three failure categories of run_audio_aes are reported
distinctly, and the non-zero-exit message carries the exit code and both
captured streams. -/
theorem aes_failure_categories (dir cmd injl outjl : String) (batch : ℕ)
    (w : AesWorld) (hex : w.inputExists = true)
    (hne : w.inputEmpty = false) :
    aesFailureProps dir cmd injl outjl batch w := by
  refine ⟨?_, ?_, ?_, ?_⟩
  · intro h
    simp [run_audio_aes, hex, hne, h]
  · intro code out err h
    refine ⟨by simp [run_audio_aes, hex, hne, h], ?_, ?_, ?_⟩
    · exact ⟨"Error running " ++ (cmd ++ ". Exit code: "),
        (if err = "" then "" else "\nStderr:\n" ++ err.trim) ++
          (if out = "" then "" else "\nStdout:\n" ++ out.trim),
        by simp [exitMsg, String.append_assoc]⟩
    · intro herr
      refine ⟨"Error running " ++ (cmd ++ (". Exit code: " ++
        (toString code ++ "\nStderr:\n"))),
        (if out = "" then "" else "\nStdout:\n" ++ out.trim), ?_⟩
      rw [exitMsg, if_neg herr]
      simp [String.append_assoc]
    · intro hout
      refine ⟨"Error running " ++ (cmd ++ (". Exit code: " ++
        (toString code ++ ((if err = "" then "" else "\nStderr:\n" ++
          err.trim) ++ "\nStdout:\n")))), "", ?_⟩
      rw [exitMsg, if_neg hout]
      simp [String.append_assoc]
  · intro out err werr h
    simp [run_audio_aes, hex, hne, h]
  · intro cmd2 code out err opath we
    refine ⟨?_, ?_, ?_⟩
    · intro h
      have h5 : (notFoundMsg cmd).data.getD 5 ' ' =
          (exitMsg cmd2 code out err).data.getD 5 ' ' := by rw [h]
      rw [charAt5_notFound, charAt5_exit] at h5
      exact absurd h5 (by decide)
    · intro h
      have h5 : (notFoundMsg cmd).data.getD 5 ' ' =
          (osWriteMsg opath we).data.getD 5 ' ' := by rw [h]
      rw [charAt5_notFound, charAt5_os] at h5
      exact absurd h5 (by decide)
    · intro h
      have h5 : (exitMsg cmd2 code out err).data.getD 5 ' ' =
          (osWriteMsg opath we).data.getD 5 ' ' := by rw [h]
      rw [charAt5_exit, charAt5_os] at h5
      exact absurd h5 (by decide)

/-- C7 witness: the theorem applied to a failing concrete run. -/
theorem aes_failure_categories_witness :
    aesFailureProps "/b/s1" "audio-aes" "paths.jsonl" "scores.jsonl" 100
      c7World :=
  aes_failure_categories "/b/s1" "audio-aes" "paths.jsonl" "scores.jsonl"
    100 c7World (by decide) (by decide)

/-- C8: a subdirectory that reaches the index writer and yields zero WAV
files is marked skipped-no-media, the skipped-no-media counter of the run
is positive, and the external scoring command is never invoked for it. -/
theorem zero_wav_skips_scorer (pathify : String → String) (cmd : String)
    (batch : ℕ) (overwrite : Bool) (base : String)
    (subdirs : List SubdirWorld) (d : SubdirWorld)
    (hmem : d ∈ subdirs)
    (hnoskip : ¬ (overwrite = false ∧ d.scoresExists = true))
    (hzero : (create_wav_jsonl pathify (joinPath base d.name) "paths.jsonl"
      d.cwj).1 = 0)
    (hnodup : (subdirs.map fun x => x.name).Nodup) :
    subdirOutcome pathify cmd batch overwrite base d = .skippedNoWav ∧
    subdirInvokes pathify overwrite base d = false ∧
    1 ≤ (perform_preprocessing pathify cmd batch overwrite base
      (.ok subdirs)).skippedNoWav ∧
    d.name ∉ (perform_preprocessing pathify cmd batch overwrite base
      (.ok subdirs)).invoked := by
  have hne : subdirs ≠ [] := by
    rintro rfl
    simp at hmem
  have h1 : subdirOutcome pathify cmd batch overwrite base d
      = .skippedNoWav := by
    simp [subdirOutcome, hnoskip, hzero]
  have h2 : subdirInvokes pathify overwrite base d = false := by
    simp [subdirInvokes, hnoskip, hzero]
  refine ⟨h1, h2, ?_, ?_⟩
  · have hc : (perform_preprocessing pathify cmd batch overwrite base
        (.ok subdirs)).skippedNoWav = subdirs.countP fun x =>
          decide (subdirOutcome pathify cmd batch overwrite base x
            = .skippedNoWav) := by
      simp [perform_preprocessing, hne]
    rw [hc]
    have hp : 0 < subdirs.countP fun x =>
        decide (subdirOutcome pathify cmd batch overwrite base x
          = .skippedNoWav) :=
      List.countP_pos_iff.mpr ⟨d, hmem, by simp [h1]⟩
    omega
  · intro hmemInv
    have hi : (perform_preprocessing pathify cmd batch overwrite base
        (.ok subdirs)).invoked = (subdirs.filter
          (subdirInvokes pathify overwrite base)).map (fun x => x.name) := by
      simp [perform_preprocessing, hne]
    rw [hi] at hmemInv
    obtain ⟨d2, hd2, hname⟩ := List.mem_map.mp hmemInv
    have hd2f := List.mem_filter.mp hd2
    have heq : d2 = d :=
      List.inj_on_of_nodup_map hnodup hd2f.1 hmem hname
    rw [heq] at hd2f
    rw [h2] at hd2f
    exact absurd hd2f.2 (by simp)

/-- C8 witness: the theorem applied to a run over one WAV-free and one
WAV-bearing subdirectory. -/
theorem zero_wav_skips_scorer_witness :
    subdirOutcome wPathify "audio-aes" 100 false "/b" c8NoWav
      = .skippedNoWav ∧
    subdirInvokes wPathify false "/b" c8NoWav = false ∧
    1 ≤ (perform_preprocessing wPathify "audio-aes" 100 false "/b"
      (.ok [c8NoWav, c8Wav])).skippedNoWav ∧
    c8NoWav.name ∉ (perform_preprocessing wPathify "audio-aes" 100 false "/b"
      (.ok [c8NoWav, c8Wav])).invoked :=
  zero_wav_skips_scorer wPathify "audio-aes" 100 false "/b"
    [c8NoWav, c8Wav] c8NoWav (by decide) (by decide) (by decide) (by decide)

/-- C10: a subdirectory that passes the skip-existing check and whose
listing holds no WAV file still has its manifest paths.jsonl opened with
mode w and therefore overwritten with empty content, even though it ends
as skipped-no-media; the run records that write. -/
theorem zero_wav_still_truncates_manifest (pathify : String → String)
    (cmd : String) (batch : ℕ) (overwrite : Bool) (base : String)
    (subdirs : List SubdirWorld) (d : SubdirWorld) (files : List String)
    (hmem : d ∈ subdirs)
    (hnoskip : ¬ (overwrite = false ∧ d.scoresExists = true))
    (hlist : d.cwj.listing = .ok files)
    (hwav : files.filter endsWithWavCI = [])
    (hopen : d.cwj.openOk = true) :
    subdirOutcome pathify cmd batch overwrite base d = .skippedNoWav ∧
    subdirManifestEffect pathify overwrite base d = .written [] ∧
    (d.name, ManifestEffect.written []) ∈
      (perform_preprocessing pathify cmd batch overwrite base
        (.ok subdirs)).manifestEffects := by
  have hne : subdirs ≠ [] := by
    rintro rfl
    simp at hmem
  have hcr : create_wav_jsonl pathify (joinPath base d.name) "paths.jsonl"
      d.cwj = (0, "Created " ++ ("paths.jsonl" ++ (" with " ++
        (toString (0 : ℕ) ++ " WAV entries."))), .written []) := by
    unfold create_wav_jsonl
    rw [hlist]
    simp [hwav, hopen]
  have h1 : subdirOutcome pathify cmd batch overwrite base d
      = .skippedNoWav := by
    simp [subdirOutcome, hnoskip, hcr]
  have h2 : subdirManifestEffect pathify overwrite base d = .written [] := by
    simp [subdirManifestEffect, hnoskip, hcr]
  refine ⟨h1, h2, ?_⟩
  have hm : (perform_preprocessing pathify cmd batch overwrite base
      (.ok subdirs)).manifestEffects = subdirs.map fun x =>
        (x.name, subdirManifestEffect pathify overwrite base x) := by
    simp [perform_preprocessing, hne]
  rw [hm]
  exact List.mem_map.mpr ⟨d, hmem, by rw [h2]⟩

/-- C10 witness: the theorem applied to a subdirectory listing only a
text file. -/
theorem zero_wav_still_truncates_manifest_witness :
    subdirOutcome wPathify "audio-aes" 100 false "/b" c10Sub
      = .skippedNoWav ∧
    subdirManifestEffect wPathify false "/b" c10Sub = .written [] ∧
    (c10Sub.name, ManifestEffect.written []) ∈
      (perform_preprocessing wPathify "audio-aes" 100 false "/b"
        (.ok [c10Sub])).manifestEffects :=
  zero_wav_still_truncates_manifest wPathify "audio-aes" 100 false "/b"
    [c10Sub] c10Sub ["readme.txt"] (by decide) (by decide) (by decide)
    (by decide) (by decide)

/-- The record list returned by a load over a valid base directory: it is
the concatenation of the per-subdirectory record lists, except that the
no-data branches return a (then equal) empty list. -/
theorem load_fst_cases (isFile : String → Bool)
    (subdirs : List SubdirFiles) :
    (load_audio_data isFile true subdirs).1
      = subdirs.flatMap (subdirRecords isFile) ∨
    ((load_audio_data isFile true subdirs).1 = [] ∧
      subdirs.flatMap (subdirRecords isFile) = []) := by
  simp only [load_audio_data]
  rw [if_neg (by simp : ¬ (true = false))]
  by_cases hA : subdirs.flatMap (subdirRecords isFile) = []
  · right
    refine ⟨?_, hA⟩
    split_ifs <;> simp [hA]
  · left
    have hc1 : ¬ ((subdirs.any fun d => d.hasBoth) = false ∧
        subdirs.flatMap (subdirRecords isFile) = []) := fun hc => hA hc.2
    have hc2 : ¬ (subdirs.flatMap (subdirRecords isFile) = [] ∧
        (subdirs.any fun d => d.hasBoth) = true) := fun hc => hA hc.1
    rw [if_neg hc1, if_neg hc2]

/-- Membership in the record list returned by a load over a valid base
directory is membership in the concatenation of the per-subdirectory
record lists. -/
theorem mem_load_fst (isFile : String → Bool) (subdirs : List SubdirFiles)
    (e : Entry) :
    (e ∈ (load_audio_data isFile true subdirs).1 ↔
      e ∈ subdirs.flatMap (subdirRecords isFile)) := by
  rcases load_fst_cases isFile subdirs with h | ⟨h1, h2⟩
  · rw [h]
  · rw [h1, h2]

/-- A pair accepted by the pairing loop carries a present, non-empty path
that is an existing regular file, and the record stores that path. -/
theorem pairRecord_some (isFile : String → Bool) (pd : PathEntry)
    (sd : ScoreEntry) (e : Entry) (h : pairRecord isFile pd sd = some e) :
    ∃ p, pd.path = some p ∧ p ≠ "" ∧ isFile p = true ∧ e.path = p := by
  obtain ⟨op⟩ := pd
  cases op with
  | none => simp [pairRecord] at h
  | some p =>
    by_cases h0 : p = ""
    · simp [pairRecord, h0] at h
    · by_cases hf : isFile p = true
      · refine ⟨p, rfl, h0, hf, ?_⟩
        simp [pairRecord, h0, hf] at h
        rw [← h]
      · simp [pairRecord, h0, hf] at h

/-- The pairing loop accepts a pair whose path is present, non-empty and
an existing regular file, and builds its record. -/
theorem pairRecord_accepts (isFile : String → Bool) (pd : PathEntry)
    (sd : ScoreEntry) (p : String) (hp : pd.path = some p) (h0 : p ≠ "")
    (hf : isFile p = true) :
    pairRecord isFile pd sd
      = some ⟨pathName p, p, sd.CE, sd.CU, sd.PC, sd.PQ⟩ := by
  unfold pairRecord
  rw [hp]
  simp [h0, hf]

/-- Every record of every load has a path that is an existing regular
file at load time. -/
theorem load_mem_isFile (isFile : String → Bool)
    (subdirs : List SubdirFiles) :
    ∀ e ∈ (load_audio_data isFile true subdirs).1, isFile e.path = true := by
  intro e he
  rw [mem_load_fst] at he
  obtain ⟨d, -, hed⟩ := List.mem_flatMap.mp he
  unfold subdirRecords at hed
  by_cases hb : d.hasBoth = true
  · rw [if_pos hb] at hed
    by_cases hl : (parsedLines d.pathsLines).length
        = (parsedLines d.scoresLines).length
    · rw [if_pos hl] at hed
      obtain ⟨pr, -, hpr⟩ := List.mem_filterMap.mp hed
      obtain ⟨p, -, -, hf, hep⟩ := pairRecord_some isFile pr.1 pr.2 e hpr
      rw [hep]
      exact hf
    · rw [if_neg hl] at hed
      simp at hed
  · rw [if_neg hb] at hed
    simp at hed

/-- C1 counterexample: with every path an existing regular file, a load
of a base directory holding one subdirectory whose manifest resolves the
path "/a" but whose scores file is empty yields no record for "/a" (the
count mismatch rejects the subdirectory), refuting the claimed
equivalence between appearing in the loaded set and existing on disk. -/
theorem record_iff_file_counterexample :
    "/a" ∈ resolvedPaths [c1Sub] ∧ allFiles "/a" = true ∧
    ¬ ((∃ e ∈ (load_audio_data allFiles true [c1Sub]).1, e.path = "/a") ↔
        allFiles "/a" = true) := by
  decide

/-- C1 amended: every loaded record resolves to an existing regular file
(the only-if direction holds for every load), and the equivalence itself
holds for each paired manifest entry with a present non-empty path inside
a subdirectory whose file pair is present with matching valid-line
counts. -/
theorem record_iff_file_amended (isFile : String → Bool)
    (subdirs : List SubdirFiles) (d : SubdirFiles)
    (pr : PathEntry × ScoreEntry) (p : String)
    (hmem : d ∈ subdirs) (hboth : d.hasBoth = true)
    (hlen : (parsedLines d.pathsLines).length
      = (parsedLines d.scoresLines).length)
    (hpr : pr ∈ (parsedLines d.pathsLines).zip (parsedLines d.scoresLines))
    (hp : pr.1.path = some p) (hne : p ≠ "") :
    (∀ e ∈ (load_audio_data isFile true subdirs).1, isFile e.path = true) ∧
    ((∃ e ∈ (load_audio_data isFile true subdirs).1, e.path = p) ↔
      isFile p = true) := by
  refine ⟨load_mem_isFile isFile subdirs, ?_, ?_⟩
  · rintro ⟨e, he, hep⟩
    rw [← hep]
    exact load_mem_isFile isFile subdirs e he
  · intro hf
    refine ⟨⟨pathName p, p, pr.2.CE, pr.2.CU, pr.2.PC, pr.2.PQ⟩, ?_, rfl⟩
    rw [mem_load_fst]
    refine List.mem_flatMap.mpr ⟨d, hmem, ?_⟩
    unfold subdirRecords
    rw [if_pos hboth, if_pos hlen]
    exact List.mem_filterMap.mpr
      ⟨pr, hpr, pairRecord_accepts isFile pr.1 pr.2 p hp hne hf⟩

/-- C1 witness: the amended theorem applied to a one-subdirectory load
with a matching pair and an existing path. -/
theorem record_iff_file_amended_witness :
    (∀ e ∈ (load_audio_data allFiles true [c1GoodSub]).1,
      allFiles e.path = true) ∧
    ((∃ e ∈ (load_audio_data allFiles true [c1GoodSub]).1, e.path = "/a") ↔
      allFiles "/a" = true) :=
  record_iff_file_amended allFiles [c1GoodSub] c1GoodSub
    ⟨⟨some "/a"⟩, ⟨some 1, none, none, none⟩⟩ "/a" (by decide) (by decide)
    (by decide) (by decide) (by decide) (by decide)

/-- C2: a subdirectory whose two files have differing valid-line counts
contributes zero records to the load, and every record of every other
subdirectory is still loaded. -/
theorem mismatch_rejects_subdir (isFile : String → Bool)
    (subdirs : List SubdirFiles) (d : SubdirFiles)
    (_hmem : d ∈ subdirs) (hboth : d.hasBoth = true)
    (hmis : (parsedLines d.pathsLines).length
      ≠ (parsedLines d.scoresLines).length) :
    subdirRecords isFile d = [] ∧
    (∀ d2 ∈ subdirs, ∀ e ∈ subdirRecords isFile d2,
      e ∈ (load_audio_data isFile true subdirs).1) := by
  constructor
  · unfold subdirRecords
    rw [if_pos hboth, if_neg hmis]
  · intro d2 hd2 e he
    rw [mem_load_fst]
    exact List.mem_flatMap.mpr ⟨d2, hd2, he⟩

/-- C2 witness: the theorem applied to a load with one mismatched and one
clean subdirectory. -/
theorem mismatch_rejects_subdir_witness :
    subdirRecords allFiles c2Bad = [] ∧
    (∀ d2 ∈ [c2Bad, c2Good], ∀ e ∈ subdirRecords allFiles d2,
      e ∈ (load_audio_data allFiles true [c2Bad, c2Good]).1) :=
  mismatch_rejects_subdir allFiles [c2Bad, c2Good] c2Bad (by decide)
    (by decide) (by decide)

/-- A malformed line contributes nothing to the parsed content: reading
continues with the remaining lines. -/
theorem parsedLines_malformed {α : Type} (xs ys : List (JsonLine α)) :
    parsedLines (xs ++ JsonLine.malformed :: ys) = parsedLines (xs ++ ys) := by
  simp [parsedLines]

/-- A malformed line adds exactly one to the malformed-line count of its
file. -/
theorem countMalformed_middle {α : Type} (xs ys : List (JsonLine α)) :
    (xs ++ JsonLine.malformed :: ys).countP isMalformed
      = (xs ++ ys).countP isMalformed + 1 := by
  simp [List.countP_append, List.countP_cons, isMalformed]
  omega

/-- C6 counterexample: in a subdirectory whose scores file holds one
malformed line next to a valid pair, the line is skipped and the
subdirectory still yields its record, but the invalid counter stays zero:
the malformed scores line is not counted as invalid (the increment at
AudioREV.py line 75 is commented out). -/
theorem malformed_count_counterexample :
    c6Sub.scoresLines.countP isMalformed = 1 ∧
    (load_audio_data allFiles true [c6Sub]).1.length = 1 ∧
    ¬ (c6Sub.scoresLines.countP isMalformed ≤ totalInvalid allFiles [c6Sub]) := by
  decide

/-- Closed form of the invalid-counter contribution of a subdirectory
whose file pair is present. -/
theorem subdirInvalid_closed (isFile : String → Bool) (n : String)
    (ls : List (JsonLine PathEntry)) (ss : List (JsonLine ScoreEntry)) :
    subdirInvalid isFile ⟨n, true, ls, ss⟩
      = ls.countP isMalformed +
        (if (parsedLines ls).length = (parsedLines ss).length then
          (((parsedLines ls).zip (parsedLines ss)).map
            (fun pr => pairInvalid isFile pr.1 pr.2)).sum
        else 0) := by
  simp only [subdirInvalid]
  split_ifs <;> simp_all

/-- C6 amended: a malformed line in either file is skipped and processing
of the subdirectory continues, with the records unchanged; a malformed
manifest line additionally adds one to the invalid counter, while a
malformed scores line leaves the invalid counter unchanged. -/
theorem malformed_line_handling (isFile : String → Bool) (n : String)
    (xs ys : List (JsonLine PathEntry)) (us vs : List (JsonLine ScoreEntry))
    (ps : List (JsonLine PathEntry)) (ss : List (JsonLine ScoreEntry)) :
    parsedLines (xs ++ JsonLine.malformed :: ys) = parsedLines (xs ++ ys) ∧
    parsedLines (us ++ JsonLine.malformed :: vs) = parsedLines (us ++ vs) ∧
    subdirRecords isFile ⟨n, true, xs ++ JsonLine.malformed :: ys, ss⟩
      = subdirRecords isFile ⟨n, true, xs ++ ys, ss⟩ ∧
    subdirRecords isFile ⟨n, true, ps, us ++ JsonLine.malformed :: vs⟩
      = subdirRecords isFile ⟨n, true, ps, us ++ vs⟩ ∧
    subdirInvalid isFile ⟨n, true, xs ++ JsonLine.malformed :: ys, ss⟩
      = subdirInvalid isFile ⟨n, true, xs ++ ys, ss⟩ + 1 ∧
    subdirInvalid isFile ⟨n, true, ps, us ++ JsonLine.malformed :: vs⟩
      = subdirInvalid isFile ⟨n, true, ps, us ++ vs⟩ := by
  refine ⟨parsedLines_malformed xs ys, parsedLines_malformed us vs,
    ?_, ?_, ?_, ?_⟩
  · unfold subdirRecords
    rw [parsedLines_malformed]
  · unfold subdirRecords
    rw [parsedLines_malformed]
  · rw [subdirInvalid_closed, subdirInvalid_closed, parsedLines_malformed,
      countMalformed_middle]
    omega
  · rw [subdirInvalid_closed, subdirInvalid_closed, parsedLines_malformed]

/-- The key comparison is reflexive. -/
theorem leSKey_refl (a : SKey) : leSKey a a = true := by
  cases a <;> simp [leSKey]

/-- The key comparison is total. -/
theorem leSKey_total (a b : SKey) : (leSKey a b || leSKey b a) = true := by
  cases a <;> cases b <;> simp [leSKey] <;> exact le_total _ _

/-- The key comparison is transitive. -/
theorem leSKey_trans (a b c : SKey) (h1 : leSKey a b = true)
    (h2 : leSKey b c = true) : leSKey a c = true := by
  cases a <;> cases b <;> cases c <;> simp [leSKey] at h1 h2 ⊢ <;>
    exact le_trans h1 h2

/-- The element comparison of one sort call is transitive. -/
theorem sortLe_trans (c : Col) (rev : Bool) (x y z : Entry)
    (h1 : sortLe c rev x y = true) (h2 : sortLe c rev y z = true) :
    sortLe c rev x z = true := by
  cases rev <;> simp only [sortLe, if_true, if_false] at h1 h2 ⊢
  · exact leSKey_trans _ _ _ h1 h2
  · exact leSKey_trans _ _ _ h2 h1

/-- The element comparison of one sort call is total. -/
theorem sortLe_total (c : Col) (rev : Bool) (x y : Entry) :
    (sortLe c rev x y || sortLe c rev y x) = true := by
  cases rev <;> simp only [sortLe, if_true, if_false]
  · exact leSKey_total _ _
  · exact leSKey_total _ _

/-- An absent value keys to the top of the ascending order and to the
bottom of the descending order. -/
theorem colAbsent_key (c : Col) (e : Entry) (h : colAbsent c e = true) :
    sortKeyFor c false e = .ntop ∧ sortKeyFor c true e = .nbot := by
  cases c <;> simp [colAbsent] at h <;> simp [sortKeyFor, numKey, h]

/-- Only an absent value keys to the top of the ascending order. -/
theorem key_ntop_absent (c : Col) (e : Entry)
    (h : sortKeyFor c false e = .ntop) : colAbsent c e = true := by
  cases c
  case filename => simp [sortKeyFor] at h
  case path => simp [sortKeyFor] at h
  case CE =>
    simp only [sortKeyFor] at h
    cases hc : e.CE with
    | none => simp [colAbsent, hc]
    | some v => rw [hc] at h; simp [numKey] at h
  case CU =>
    simp only [sortKeyFor] at h
    cases hc : e.CU with
    | none => simp [colAbsent, hc]
    | some v => rw [hc] at h; simp [numKey] at h
  case PC =>
    simp only [sortKeyFor] at h
    cases hc : e.PC with
    | none => simp [colAbsent, hc]
    | some v => rw [hc] at h; simp [numKey] at h
  case PQ =>
    simp only [sortKeyFor] at h
    cases hc : e.PQ with
    | none => simp [colAbsent, hc]
    | some v => rw [hc] at h; simp [numKey] at h

/-- Only an absent value keys to the bottom of the descending order. -/
theorem key_nbot_absent (c : Col) (e : Entry)
    (h : sortKeyFor c true e = .nbot) : colAbsent c e = true := by
  cases c
  case filename => simp [sortKeyFor] at h
  case path => simp [sortKeyFor] at h
  case CE =>
    simp only [sortKeyFor] at h
    cases hc : e.CE with
    | none => simp [colAbsent, hc]
    | some v => rw [hc] at h; simp [numKey] at h
  case CU =>
    simp only [sortKeyFor] at h
    cases hc : e.CU with
    | none => simp [colAbsent, hc]
    | some v => rw [hc] at h; simp [numKey] at h
  case PC =>
    simp only [sortKeyFor] at h
    cases hc : e.PC with
    | none => simp [colAbsent, hc]
    | some v => rw [hc] at h; simp [numKey] at h
  case PQ =>
    simp only [sortKeyFor] at h
    cases hc : e.PQ with
    | none => simp [colAbsent, hc]
    | some v => rw [hc] at h; simp [numKey] at h

/-- Anything above the numeric top key is the top key or a string key. -/
theorem leSKey_ntop_left (k : SKey) (h : leSKey .ntop k = true) :
    k = .ntop ∨ ∃ s, k = .strv s := by
  cases k <;> simp [leSKey] at h ⊢

/-- Nothing but the bottom key is below the bottom key. -/
theorem leSKey_nbot_right (k : SKey) (h : leSKey k .nbot = true) :
    k = .nbot := by
  cases k <;> simp [leSKey] at h ⊢

/-- Numeric keys are never string keys. -/
theorem numKey_ne_strv (r : Bool) (o : Option ℚ) (s : String) :
    numKey r o ≠ .strv s := by
  cases o <;> cases r <;> simp [numKey]

/-- In the order of one sort call, everything at or after an
absent-valued entry is itself absent-valued. -/
theorem absent_after (c : Col) (rev : Bool) (a b : Entry)
    (hle : sortLe c rev a b = true) (ha : colAbsent c a = true) :
    colAbsent c b = true := by
  cases rev
  · simp only [sortLe, if_true, if_false] at hle
    rw [(colAbsent_key c a ha).1] at hle
    rcases leSKey_ntop_left _ hle with hk | ⟨s, hk⟩
    · exact key_ntop_absent c b hk
    · exfalso
      cases c
      case filename => simp [colAbsent] at ha
      case path => simp [colAbsent] at ha
      case CE => exact numKey_ne_strv false b.CE s hk
      case CU => exact numKey_ne_strv false b.CU s hk
      case PC => exact numKey_ne_strv false b.PC s hk
      case PQ => exact numKey_ne_strv false b.PQ s hk
  · simp only [sortLe, if_true, if_false] at hle
    rw [(colAbsent_key c a ha).2] at hle
    exact key_nbot_absent c b (leSKey_nbot_right _ hle)

/-- A non-empty sort_column call sorts the display with the direction
computed from the stored column and direction, and stores both. -/
theorem sort_column_eq (c : Col) (s : SortState) (hne : s.display ≠ []) :
    sort_column c s = ⟨s.display.mergeSort (sortLe c
      (if s.currentSortColumn = some c then !s.currentSortReverse
        else false)),
      some c,
      if s.currentSortColumn = some c then !s.currentSortReverse
        else false⟩ := by
  unfold sort_column
  rw [if_neg hne]

/-- C5: sorting by a new column is ascending, sorting it again is
descending and a third time ascending again; each invocation permutes the
displayed records, is stable for equal sort keys, orders the list by its
direction, and places absent values after all present values in both
directions. -/
theorem sort_column_toggle_stable (c : Col) (s : SortState)
    (hcol : s.currentSortColumn ≠ some c) (hne : s.display ≠ []) :
    sortClaimProps c s := by
  have h1 : sort_column c s
      = ⟨s.display.mergeSort (sortLe c false), some c, false⟩ := by
    rw [sort_column_eq c s hne, if_neg hcol]
  have hperm1 : (sort_column c s).display.Perm s.display := by
    rw [h1]
    exact List.mergeSort_perm s.display (sortLe c false)
  have hne1 : (sort_column c s).display ≠ [] := by
    intro h0
    have hlen := hperm1.length_eq
    rw [h0] at hlen
    exact hne (List.length_eq_zero.mp hlen.symm)
  have h2 : sort_column c (sort_column c s)
      = ⟨(sort_column c s).display.mergeSort (sortLe c true), some c,
        true⟩ := by
    rw [sort_column_eq c (sort_column c s) hne1, h1]
    simp
  have hperm2 : (sort_column c (sort_column c s)).display.Perm
      (sort_column c s).display := by
    rw [h2]
    exact List.mergeSort_perm _ _
  have hne2 : (sort_column c (sort_column c s)).display ≠ [] := by
    intro h0
    have hlen := hperm2.length_eq
    rw [h0] at hlen
    exact hne1 (List.length_eq_zero.mp hlen.symm)
  have h3rev : (sort_column c (sort_column c
      (sort_column c s))).currentSortReverse = false := by
    rw [sort_column_eq c _ hne2, h2]
    simp
  have hsorted1 : ((sort_column c s).display).Pairwise
      (fun x y => sortLe c false x y = true) := by
    rw [h1]
    exact List.sorted_mergeSort (sortLe_trans c false) (sortLe_total c false)
      s.display
  have hsorted2 : ((sort_column c (sort_column c s)).display).Pairwise
      (fun x y => sortLe c true x y = true) := by
    rw [h2]
    exact List.sorted_mergeSort (sortLe_trans c true) (sortLe_total c true)
      (sort_column c s).display
  refine ⟨⟨by rw [h1], by rw [h1], by rw [h2], h3rev⟩,
    ⟨hperm1, hperm2.trans hperm1⟩, ?_, ?_, ?_, ?_, hsorted1, hsorted2⟩
  · intro a b hsub hkey
    rw [h1]
    apply List.pair_sublist_mergeSort (sortLe_trans c false)
      (sortLe_total c false) ?_ hsub
    show leSKey (sortKeyFor c false a) (sortKeyFor c false b) = true
    rw [hkey]
    exact leSKey_refl _
  · intro a b hsub hkey
    rw [h2]
    apply List.pair_sublist_mergeSort (sortLe_trans c true)
      (sortLe_total c true) ?_ hsub
    show leSKey (sortKeyFor c true b) (sortKeyFor c true a) = true
    rw [hkey]
    exact leSKey_refl _
  · intro a b hsub ha
    have hp := List.Pairwise.sublist hsub hsorted1
    have hab : sortLe c false a b = true :=
      List.rel_of_pairwise_cons hp (List.mem_cons_self b [])
    exact absent_after c false a b hab ha
  · intro a b hsub ha
    have hp := List.Pairwise.sublist hsub hsorted2
    have hab : sortLe c true a b = true :=
      List.rel_of_pairwise_cons hp (List.mem_cons_self b [])
    exact absent_after c true a b hab ha

/-- C5 witness: the theorem applied to three displayed records sorted by
the PQ column. -/
theorem sort_column_toggle_stable_witness :
    c5State.currentSortColumn ≠ some Col.PQ ∧ c5State.display ≠ [] ∧
    sortClaimProps Col.PQ c5State :=
  ⟨by decide, by decide,
    sort_column_toggle_stable Col.PQ c5State (by decide) (by decide)⟩
